import Mathlib

/-!
Verification development for the microsync synchronization engine.

Each definition below is a shallow embedding of a function of the Python
source (file and line references in the doc comments).  Machine-level
details that the claims depend on are modelled explicitly: Python
exceptions become `Except` errors, Python truthiness of `Result` values
becomes the `success` flag, tuples and lists are distinguished in the
value model, and subprocess/file-system outcomes are supplied by
environment records so that every control path of the orchestration code
can be examined.
-/

namespace Microsync

/-- Exceptions raised by the Python code: the microsync exception classes of
`microsync/errors.py` together with the Python builtins (`KeyError`,
`TypeError`, `json.JSONDecodeError`, `ValueError`, subprocess failures from
`sh`) that the embedded code can raise. -/
inductive PyErr where
  | stateFileNotFound (path : String)
  | stateFileMalformed (path : String)
  | stateContentMalformed
  | stateFileFieldMissing (field : String)
  | keyError (key : String)
  | typeError (msg : String)
  | jsonDecodeError
  | valueError (msg : String)
  | shError (msg : String)
  | renderedTemplateDirectoryExists (path : String)
  deriving DecidableEq, Repr

/-- `results.Result` (results.py lines 17-32): success flag, captured
stdout/stderr and an optional attached exception. -/
structure Result where
  success : Bool
  stdout : String
  stderr : String
  error : Option PyErr
  deriving DecidableEq, Repr

namespace Results

/-- `Result.exit_code` (results.py lines 27-29): `int(not self.success)`. -/
def exitCode (r : Result) : Int :=
  if r.success then 0 else 1

/-- `Result.__bool__` (results.py lines 31-32): truthiness of a result is its
`success` flag. -/
def toBool (r : Result) : Bool :=
  r.success

/-- `results.success` (results.py lines 35-44). -/
def success (stdout stderr : String) : Result :=
  ⟨true, stdout, stderr, none⟩

/-- `results.failure` (results.py lines 47-56). -/
def failure (stdout stderr : String) : Result :=
  ⟨false, stdout, stderr, none⟩

/-- `results.error` (results.py lines 59-70). -/
def error (exc : PyErr) (stdout stderr : String) : Result :=
  ⟨false, stdout, stderr, some exc⟩

/-- `results.inverse` (results.py lines 85-96): negate `success`, keep
`stdout`, `stderr` and `error`. -/
def inverse (r : Result) : Result :=
  ⟨!r.success, r.stdout, r.stderr, r.error⟩

/-- `results.wrapper` (results.py lines 99-114) applied to the outcome of the
wrapped body.  A normal return passes through.  A raised
`StateFileNotFound` is converted to an error `Result` (line 110).  Every
other exception is re-raised by the `raise ex` statement at line 112; the
`return error(ex, stderr=str(ex))` at line 113 is unreachable dead code. -/
def wrapper (body : Except PyErr Result) : Except PyErr Result :=
  match body with
  | .ok r => .ok r
  | .error e =>
    match e with
    | .stateFileNotFound p =>
        .ok (error (.stateFileNotFound p) ""
          ("Not a microsync repository; state file not found \"" ++ p ++ "\""))
    | e => .error e

end Results

/-! ## Python values and the linkage-record data model (config.py, serde.py) -/

mutual
/-- Python runtime values as they occur in the linkage record: the JSON
scalar types plus lists, tuples and string-keyed dicts.  Lists and tuples
are distinct constructors because Python `==` never identifies a list with
a tuple (`[] == ()` is `False`), which is what the serde round-trip claim
turns on. -/
inductive PyVal where
  | vnone
  | vbool (b : Bool)
  | vint (n : Int)
  | vstr (s : String)
  | vlist (xs : PyList)
  | vtuple (xs : PyList)
  | vdict (kvs : PyDict)
/-- A sequence of Python values (payload of `vlist`/`vtuple`). -/
inductive PyList where
  | nil
  | cons (hd : PyVal) (tl : PyList)
/-- A string-keyed Python dict, as an association list in insertion order. -/
inductive PyDict where
  | nil
  | cons (key : String) (val : PyVal) (tl : PyDict)
end

/-- Key lookup in a dict, modelling Python `d[k]` when it succeeds and
`k in d` checks.  First match wins (dicts carry no duplicate keys). -/
def dictGet (kvs : PyDict) (k : String) : Option PyVal :=
  match kvs with
  | .nil => none
  | .cons k2 v tl => if k2 = k then some v else dictGet tl k

/-- True when every key of the dict is among `allowed`; models CPython's
keyword-argument check when a dataclass constructor is called with
`Cls(**d)` (an unexpected key raises `TypeError`). -/
def keysAllowed (kvs : PyDict) (allowed : List String) : Bool :=
  match kvs with
  | .nil => true
  | .cons k _ tl => allowed.contains k && keysAllowed tl allowed

/-- Insert one entry into a key-sorted dict, keeping it sorted by key. -/
def insertDict (k : String) (v : PyVal) : PyDict → PyDict
  | .nil => .cons k v .nil
  | .cons k2 v2 tl =>
    if compare k k2 = Ordering.gt then .cons k2 v2 (insertDict k v tl)
    else .cons k v (.cons k2 v2 tl)

/-- Sort a dict by key (insertion sort), modelling the stable key order that
`json.dumps(..., sort_keys=True)` (serde.py line 47) produces in the
encoded text and that `json.loads` then reads back. -/
def sortDict : PyDict → PyDict
  | .nil => .nil
  | .cons k v tl => insertDict k v (sortDict tl)

mutual
/-- The image of a value under `json.loads(json.dumps(v, sort_keys=True))`
(serde.py lines 30-47): scalars and strings unchanged, tuples and lists
both serialized as JSON arrays and parsed back as lists, dict keys emitted
in sorted order and read back in that order. -/
def pyJson : PyVal → PyVal
  | .vnone => .vnone
  | .vbool b => .vbool b
  | .vint n => .vint n
  | .vstr s => .vstr s
  | .vlist xs => .vlist (pyJsonList xs)
  | .vtuple xs => .vlist (pyJsonList xs)
  | .vdict kvs => .vdict (sortDict (pyJsonDict kvs))
/-- `pyJson` mapped over a sequence. -/
def pyJsonList : PyList → PyList
  | .nil => .nil
  | .cons x xs => .cons (pyJson x) (pyJsonList xs)
/-- `pyJson` mapped over dict values. -/
def pyJsonDict : PyDict → PyDict
  | .nil => .nil
  | .cons k v tl => .cons k (pyJson v) (pyJsonDict tl)
end

/-- Modelled from the spec: the version tag `meta.VERSION` (§3
`schemaVersion`, §6 `meta.version`).  The module `microsync/meta.py` is
not under src/; only the constant's existence and stability matter here,
no claim depends on its concrete value. -/
def metaVERSION : String := "0.1.0"

/-- `defaults.PATCH_MESSAGE` (defaults.py lines 21-22). -/
def patchMESSAGE : String :=
  "Update to template ref \x7bref\x7d\n\nMicrosync version: \x7bversion\x7d"

/-- `config.VCS` (config.py lines 15-23).  Field values are Python values:
decoding performs no type validation, so any JSON value can land in any
field. -/
structure VCS where
  depth : PyVal
  branch : PyVal
  origin : PyVal
  type : PyVal

/-- `config.Comparison` (config.py lines 26-32). -/
structure Comparison where
  type : PyVal
  ignore : PyVal

/-- `config.Patch` (config.py lines 35-41). -/
structure Patch where
  type : PyVal
  message : PyVal

/-- `config.Engine` (config.py lines 44-49). -/
structure Engine where
  type : PyVal

/-- `config.Template` (config.py lines 52-62). -/
structure Template where
  src : PyVal
  ref : PyVal
  comparison : Comparison
  engine : Engine
  patch : Patch
  vcs : VCS

/-- `config.Meta` (config.py lines 65-70). -/
structure Meta where
  version : PyVal

/-- `config.State` (config.py lines 73-109): the persisted linkage record. -/
structure State where
  template : Template
  meta : Meta
  vars : PyVal

/-- Default `VCS()` (defaults.py: depth 20, branch master, origin
origin/master, type git). -/
def defaultVCS : VCS :=
  ⟨.vint 20, .vstr "master", .vstr "origin/master", .vstr "git"⟩

/-- Default `Comparison()` : type unidiff, ignore the EMPTY TUPLE
(defaults.py line 14 `COMPARISON_IGNORE = tuple()`). -/
def defaultComparison : Comparison :=
  ⟨.vstr "unidiff", .vtuple .nil⟩

/-- Default `Patch()`. -/
def defaultPatch : Patch :=
  ⟨.vstr "git", .vstr patchMESSAGE⟩

/-- Default `Engine()`. -/
def defaultEngine : Engine :=
  ⟨.vstr "cookiecutter"⟩

/-- Default `Meta()`. -/
def defaultMeta : Meta :=
  ⟨.vstr metaVERSION⟩

/-- `config.new` (config.py lines 112-141): fresh state from user options;
`ref` as given, `ignore` and `patch`/`meta`/`variables` at their defaults. -/
def newState (src ref vcsType templateType comparisonType : String) : State :=
  ⟨⟨.vstr src, .vstr ref,
    ⟨.vstr comparisonType, .vtuple .nil⟩,
    ⟨.vstr templateType⟩,
    defaultPatch,
    ⟨.vint 20, .vstr "master", .vstr "origin/master", .vstr vcsType⟩⟩,
   defaultMeta, .vdict .nil⟩

/-- Python subscription `v[k]` with a string key, as used throughout
`State.decode`: dict lookup, `KeyError` when the key is absent,
`TypeError` when the value is not a dict (string, list, tuple, number,
None are not subscriptable by a string key). -/
def getItem (v : PyVal) (k : String) : Except PyErr PyVal :=
  match v with
  | .vdict kvs =>
    match dictGet kvs k with
    | some x => .ok x
    | none => .error (.keyError k)
  | _ => .error (.typeError ("value is not subscriptable with key " ++ k))

/-- `Comparison(**v)` as called at config.py line 100: `TypeError` unless
`v` is a mapping with keys among the dataclass fields; absent fields take
their defaults. -/
def mkComparison (v : PyVal) : Except PyErr Comparison :=
  match v with
  | .vdict kvs =>
    if keysAllowed kvs ["type", "ignore"] then
      .ok ⟨(dictGet kvs "type").getD (.vstr "unidiff"),
           (dictGet kvs "ignore").getD (.vtuple .nil)⟩
    else .error (.typeError "Comparison() got an unexpected keyword argument")
  | _ => .error (.typeError "argument after ** must be a mapping")

/-- `Engine(**v)` as called at config.py line 101. -/
def mkEngine (v : PyVal) : Except PyErr Engine :=
  match v with
  | .vdict kvs =>
    if keysAllowed kvs ["type"] then
      .ok ⟨(dictGet kvs "type").getD (.vstr "cookiecutter")⟩
    else .error (.typeError "Engine() got an unexpected keyword argument")
  | _ => .error (.typeError "argument after ** must be a mapping")

/-- `Patch(**v)` as called at config.py line 102. -/
def mkPatch (v : PyVal) : Except PyErr Patch :=
  match v with
  | .vdict kvs =>
    if keysAllowed kvs ["type", "message"] then
      .ok ⟨(dictGet kvs "type").getD (.vstr "git"),
           (dictGet kvs "message").getD (.vstr patchMESSAGE)⟩
    else .error (.typeError "Patch() got an unexpected keyword argument")
  | _ => .error (.typeError "argument after ** must be a mapping")

/-- `VCS(**v)` as called at config.py line 103. -/
def mkVCS (v : PyVal) : Except PyErr VCS :=
  match v with
  | .vdict kvs =>
    if keysAllowed kvs ["depth", "branch", "origin", "type"] then
      .ok ⟨(dictGet kvs "depth").getD (.vint 20),
           (dictGet kvs "branch").getD (.vstr "master"),
           (dictGet kvs "origin").getD (.vstr "origin/master"),
           (dictGet kvs "type").getD (.vstr "git")⟩
    else .error (.typeError "VCS() got an unexpected keyword argument")
  | _ => .error (.typeError "argument after ** must be a mapping")

/-- `Template(**data['template'])` at config.py line 104, after the four
nested components have been replaced by constructed instances: `src` is a
required argument (its absence is a `TypeError`, not a `KeyError`), `ref`
defaults to `HEAD`. -/
def mkTemplate (kvs : PyDict) (c : Comparison) (e : Engine) (p : Patch)
    (vc : VCS) : Except PyErr Template :=
  if keysAllowed kvs ["src", "ref", "comparison", "engine", "patch", "vcs"] then
    match dictGet kvs "src" with
    | some src => .ok ⟨src, (dictGet kvs "ref").getD (.vstr "HEAD"), c, e, p, vc⟩
    | none => .error (.typeError "Template() missing required argument: src")
  else .error (.typeError "Template() got an unexpected keyword argument")

/-- `Meta(**data['meta'])` at config.py line 105. -/
def mkMeta (v : PyVal) : Except PyErr Meta :=
  match v with
  | .vdict kvs =>
    if keysAllowed kvs ["version"] then
      .ok ⟨(dictGet kvs "version").getD (.vstr metaVERSION)⟩
    else .error (.typeError "Meta() got an unexpected keyword argument")
  | _ => .error (.typeError "argument after ** must be a mapping")

/-- `State(**data)` at config.py line 109 (the `else:` clause): `template`
and `meta` entries were just replaced by instances, `variables` defaults to
the empty dict, any other key is a `TypeError`. -/
def mkState (kvs : PyDict) (t : Template) (m : Meta) : Except PyErr State :=
  if keysAllowed kvs ["template", "meta", "variables"] then
    .ok ⟨t, m, (dictGet kvs "variables").getD (.vdict .nil)⟩
  else .error (.typeError "State() got an unexpected keyword argument")

/-- `Template(**data['template'])` including the mapping check on the
`data['template']` value itself. -/
def mkTemplateFrom (tj : PyVal) (c : Comparison) (e : Engine) (p : Patch)
    (vc : VCS) : Except PyErr Template :=
  match tj with
  | .vdict kvs => mkTemplate kvs c e p vc
  | _ => .error (.typeError "argument after ** must be a mapping")

/-- `State(**data)` including the mapping check on `data` itself. -/
def mkStateFrom (data : PyVal) (t : Template) (m : Meta) :
    Except PyErr State :=
  match data with
  | .vdict kvs => mkState kvs t m
  | _ => .error (.typeError "argument after ** must be a mapping")

/-- Body of the `try:` block of `config.State.decode` (config.py lines
98-105) plus the `else:` construction (line 109), over the already-parsed
JSON value: the exact sequence of subscriptions and dataclass
constructions, before the `except KeyError` translation. -/
def decodeCore (data : PyVal) : Except PyErr State := do
  let tj ← getItem data "template"
  let cj ← getItem tj "comparison"
  let comparison ← mkComparison cj
  let ej ← getItem tj "engine"
  let engine ← mkEngine ej
  let pj ← getItem tj "patch"
  let patch ← mkPatch pj
  let vj ← getItem tj "vcs"
  let vcs ← mkVCS vj
  let template ← mkTemplateFrom tj comparison engine patch vcs
  let mj ← getItem data "meta"
  let meta ← mkMeta mj
  mkStateFrom data template meta

/-- `config.State.decode` (config.py lines 88-109) over the parsed JSON
value: `decodeCore` with `except KeyError as ex: raise
StateFileFieldMissing(''.join(ex.args))` (lines 106-107).  Every other
exception (in particular `TypeError`) propagates unchanged. -/
def State.decode (data : PyVal) : Except PyErr State :=
  match decodeCore data with
  | .error (.keyError k) => .error (.stateFileFieldMissing k)
  | r => r

/-- `State.encode` (serde.py lines 64-70): `dumps(asdict(self))` with
`sort_keys=True`, composed with the parse the next reader performs.  The
result is the parsed image of the encoded JSON text: a dict with the
dataclass fields in sorted key order and every leaf replaced by its JSON
round-trip image `pyJson`. -/
def State.encode (s : State) : PyVal :=
  let comparisonD : PyVal := .vdict
    (.cons "ignore" (pyJson s.template.comparison.ignore)
    (.cons "type" (pyJson s.template.comparison.type) .nil))
  let engineD : PyVal := .vdict
    (.cons "type" (pyJson s.template.engine.type) .nil)
  let patchD : PyVal := .vdict
    (.cons "message" (pyJson s.template.patch.message)
    (.cons "type" (pyJson s.template.patch.type) .nil))
  let vcsD : PyVal := .vdict
    (.cons "branch" (pyJson s.template.vcs.branch)
    (.cons "depth" (pyJson s.template.vcs.depth)
    (.cons "origin" (pyJson s.template.vcs.origin)
    (.cons "type" (pyJson s.template.vcs.type) .nil))))
  let templateD : PyVal := .vdict
    (.cons "comparison" comparisonD
    (.cons "engine" engineD
    (.cons "patch" patchD
    (.cons "ref" (pyJson s.template.ref)
    (.cons "src" (pyJson s.template.src)
    (.cons "vcs" vcsD .nil))))))
  let metaD : PyVal := .vdict
    (.cons "version" (pyJson s.meta.version) .nil)
  .vdict
    (.cons "meta" metaD
    (.cons "template" templateD
    (.cons "variables" (pyJson s.vars) .nil)))

/-- The state with every leaf value replaced by its JSON round-trip image:
what `State.decode` actually reconstructs from `State.encode`. -/
def canonState (s : State) : State :=
  ⟨⟨pyJson s.template.src, pyJson s.template.ref,
    ⟨pyJson s.template.comparison.type, pyJson s.template.comparison.ignore⟩,
    ⟨pyJson s.template.engine.type⟩,
    ⟨pyJson s.template.patch.type, pyJson s.template.patch.message⟩,
    ⟨pyJson s.template.vcs.depth, pyJson s.template.vcs.branch,
     pyJson s.template.vcs.origin, pyJson s.template.vcs.type⟩⟩,
   ⟨pyJson s.meta.version⟩,
   pyJson s.vars⟩

/-- Outcome of opening and JSON-parsing the state file, the inputs
`config.read` distinguishes: no file at the resolved path, a file whose
contents raise `json.JSONDecodeError`, or a successfully parsed value. -/
inductive ReadInput where
  | noFile
  | unparsable
  | parsed (v : PyVal)

/-- `config.read` (config.py lines 157-170): `FileNotFoundError` becomes
`StateFileNotFound(path)`, `json.JSONDecodeError` becomes
`StateFileMalformed(path)`, and otherwise the parsed value is decoded by
`State.decode` (whose `StateFileFieldMissing`/`TypeError` propagate). -/
def read (path : String) (input : ReadInput) : Except PyErr State :=
  match input with
  | .noFile => .error (.stateFileNotFound path)
  | .unparsable => .error (.stateFileMalformed path)
  | .parsed v => State.decode v

/-- A parsed state file in which every nested object the decoder subscripts
is present, but the required leaf field `template.src` is absent. -/
def srcMissingInput : PyVal :=
  .vdict
    (.cons "template" (.vdict
      (.cons "comparison" (.vdict .nil)
      (.cons "engine" (.vdict .nil)
      (.cons "patch" (.vdict .nil)
      (.cons "vcs" (.vdict .nil) .nil)))))
    (.cons "meta" (.vdict .nil) .nil))

/-- The concrete record `config.new('https://example/tmpl', 'HEAD', 'git',
'cookiecutter', 'unidiff')`: a fully default linkage record for one
template source, with `comparison.ignore` the default empty tuple. -/
def stateA : State :=
  newState "https://example/tmpl" "HEAD" "git" "cookiecutter" "unidiff"

/-- The six object keys that `config.State.decode` subscripts: the only keys
whose absence surfaces as `KeyError` and hence as `StateFileFieldMissing`. -/
def sixKeys (k : String) : Prop :=
  k = "template" ∨ k = "comparison" ∨ k = "engine" ∨ k = "patch" ∨
    k = "vcs" ∨ k = "meta"

/-! ## The orchestration state machines (actions/sync.py, init.py, link.py)

External effects (git subprocesses, the template engine, the scratch file
system) are modelled by environment records carrying each step's outcome;
the action functions below reproduce the exact control flow of the Python
actions over those outcomes and record the externally observable events of
one invocation, in order.  Read-only queries whose values feed later steps
(`commit_id`, the status message) are carried as plain data; a failure of
such a query would propagate like any other exception before any further
event, so omitting its failure case loses no path that the claims
quantify over. -/

/-- Observable events of one action invocation.  `coBranch`, `pull`,
`coRef`, `applyPatch` and `commitPatch` are git subprocesses run inside
the user's live repository; `cloneScratch`, `statusQuery`, `contextEv`,
`renderEv` and `diffEv` happen in scratch space; `writeRecord` is a
persisted write of the linkage record with the recorded state attached. -/
inductive Ev where
  | coBranch (branch : String)
  | pull
  | coRef (ref : String)
  | cloneScratch
  | statusQuery
  | contextEv
  | renderEv
  | diffEv
  | applyPatch
  | commitPatch
  | writeRecord (s : State)

/-- The persisted linkage record after a trace of events: the state carried
by the last `writeRecord`, or the initial record if none occurred. -/
def finalRecord (init : State) : List Ev → State
  | [] => init
  | Ev.writeRecord s :: tl => finalRecord s tl
  | _ :: tl => finalRecord init tl

/-- The dirty-tree failure message of `sync` (actions/sync.py lines 43-45),
with the raw `git status --porcelain` text appended. -/
def dirtyMsg (d : String) : String :=
  "Repository is dirty and cannot sync until clean.\n\n" ++
    "Please commit changes and add/ignore untracked files:\n\n" ++ d

/-- Outcomes of the external steps of one `sync` invocation
(actions/sync.py lines 29-111): reading the record, acquiring the live
repository (`porcelain.repo` → `git.VersionControl.local`, whose
`update()` runs `git checkout master; git pull` and which then checks out
the requested ref when truthy), the dirty check, two scratch clones, the
status query, context generation, two renders, the diff, and the two git
commands of `Repository.apply_patch`. -/
structure SyncEnv where
  refArg : Option String
  readState : Except PyErr State
  coBranchOut : Except PyErr Unit
  pullOut : Except PyErr Unit
  coRefOut : Except PyErr Unit
  dirtyOut : Except PyErr String
  cloneCurrentOut : Except PyErr Unit
  statusOut : Except PyErr Bool
  statusMsg : String
  cloneTargetOut : Except PyErr Unit
  contextOut : Except PyErr Unit
  renderCurrentOut : Except PyErr Unit
  renderTargetOut : Except PyErr Unit
  diffOut : Except PyErr String
  targetCommit : String
  applyOut : Except PyErr Unit
  commitOut : Except PyErr Unit

/-- The body of `sync` from the dirty check onward (actions/sync.py lines
41-111): fail immediately on a dirty tree; clone the template at the
recorded ref; succeed as a no-op when the status says the refs are the
same; otherwise clone the target ref, generate one shared context, render
both refs, diff the renders, and apply the patch to the live repository.
Note: no branch of this function writes the linkage record. -/
def syncAfterRepo (env : SyncEnv) (evs : List Ev) :
    List Ev × Except PyErr Result :=
  match env.dirtyOut with
  | .error e => (evs, .error e)
  | .ok d =>
    if d ≠ "" then (evs, .ok (Results.failure "" (dirtyMsg d)))
    else
      match env.cloneCurrentOut with
      | .error e => (evs ++ [Ev.cloneScratch], .error e)
      | .ok _ =>
        match env.statusOut with
        | .error e => (evs ++ [Ev.cloneScratch, Ev.statusQuery], .error e)
        | .ok same =>
          if same then
            (evs ++ [Ev.cloneScratch, Ev.statusQuery],
             .ok (Results.success env.statusMsg ""))
          else
            match env.cloneTargetOut with
            | .error e =>
                (evs ++ [Ev.cloneScratch, Ev.statusQuery, Ev.cloneScratch],
                 .error e)
            | .ok _ =>
              match env.contextOut with
              | .error e =>
                  (evs ++ [Ev.cloneScratch, Ev.statusQuery, Ev.cloneScratch,
                    Ev.contextEv], .error e)
              | .ok _ =>
                match env.renderCurrentOut with
                | .error e =>
                    (evs ++ [Ev.cloneScratch, Ev.statusQuery, Ev.cloneScratch,
                      Ev.contextEv, Ev.renderEv], .error e)
                | .ok _ =>
                  match env.renderTargetOut with
                  | .error e =>
                      (evs ++ [Ev.cloneScratch, Ev.statusQuery,
                        Ev.cloneScratch, Ev.contextEv, Ev.renderEv,
                        Ev.renderEv], .error e)
                  | .ok _ =>
                    match env.diffOut with
                    | .error e =>
                        (evs ++ [Ev.cloneScratch, Ev.statusQuery,
                          Ev.cloneScratch, Ev.contextEv, Ev.renderEv,
                          Ev.renderEv, Ev.diffEv], .error e)
                    | .ok _ =>
                      match env.applyOut with
                      | .error e =>
                          (evs ++ [Ev.cloneScratch, Ev.statusQuery,
                            Ev.cloneScratch, Ev.contextEv, Ev.renderEv,
                            Ev.renderEv, Ev.diffEv, Ev.applyPatch], .error e)
                      | .ok _ =>
                        match env.commitOut with
                        | .error e =>
                            (evs ++ [Ev.cloneScratch, Ev.statusQuery,
                              Ev.cloneScratch, Ev.contextEv, Ev.renderEv,
                              Ev.renderEv, Ev.diffEv, Ev.applyPatch,
                              Ev.commitPatch], .error e)
                        | .ok _ =>
                            (evs ++ [Ev.cloneScratch, Ev.statusQuery,
                              Ev.cloneScratch, Ev.contextEv, Ev.renderEv,
                              Ev.renderEv, Ev.diffEv, Ev.applyPatch,
                              Ev.commitPatch],
                             .ok (Results.success
                               ("Repository sync successful with ref " ++
                                 env.targetCommit) ""))

/-- The un-decorated body of `sync` (actions/sync.py lines 14-111):
`config.read`, then repository acquisition on the user's live repository
(`git checkout master`, `git pull`, and `git checkout ref` when the ref
argument is truthy — before the dirty check), then `syncAfterRepo`. -/
def syncInner (env : SyncEnv) : List Ev × Except PyErr Result :=
  match env.readState with
  | .error e => ([], .error e)
  | .ok _ =>
    match env.coBranchOut with
    | .error e => ([Ev.coBranch "master"], .error e)
    | .ok _ =>
      match env.pullOut with
      | .error e => ([Ev.coBranch "master", Ev.pull], .error e)
      | .ok _ =>
        match env.refArg with
        | none => syncAfterRepo env [Ev.coBranch "master", Ev.pull]
        | some r =>
          if r = "" then syncAfterRepo env [Ev.coBranch "master", Ev.pull]
          else
            match env.coRefOut with
            | .error e =>
                ([Ev.coBranch "master", Ev.pull, Ev.coRef r], .error e)
            | .ok _ =>
                syncAfterRepo env [Ev.coBranch "master", Ev.pull, Ev.coRef r]

/-- The public `sync` action: `syncInner` under the `results.wrapper`
decorator (actions/sync.py line 13). -/
def sync (env : SyncEnv) : List Ev × Except PyErr Result :=
  ((syncInner env).1, Results.wrapper (syncInner env).2)

/-- Outcomes of the external steps of one `init` invocation
(actions/init.py lines 12-67). -/
structure InitEnv where
  src : String
  ref : String
  vcsType : String
  templateType : String
  comparisonType : String
  obtainOut : Except PyErr Unit
  renderOut : Except PyErr Unit
  renderedPath : String
  contextVars : PyVal
  commitId : String
  writeOut : Except PyErr Unit

/-- The record `init` persists: the fresh record of `config.new` after
`state.set_ref(repo.commit_id())` and
`state.set_variables(rendered.context.variables)` (actions/init.py lines
56-58). -/
def initFinalState (env : InitEnv) : State :=
  ⟨⟨PyVal.vstr env.src, PyVal.vstr env.commitId,
    ⟨PyVal.vstr env.comparisonType, PyVal.vtuple PyList.nil⟩,
    ⟨PyVal.vstr env.templateType⟩, defaultPatch,
    ⟨PyVal.vint 20, PyVal.vstr "master", PyVal.vstr "origin/master",
     PyVal.vstr env.vcsType⟩⟩,
   defaultMeta, env.contextVars⟩

/-- The un-decorated body of `init` (actions/init.py lines 12-67): create
the fresh record, obtain the template repository in scratch space, render
into the destination, then set the record ref/variables and persist the
record — the write happens strictly after the render step succeeded. -/
def initInner (env : InitEnv) : List Ev × Except PyErr Result :=
  match env.obtainOut with
  | .error e => ([Ev.cloneScratch], .error e)
  | .ok _ =>
    match env.renderOut with
    | .error e => ([Ev.cloneScratch, Ev.renderEv], .error e)
    | .ok _ =>
      match env.writeOut with
      | .error e => ([Ev.cloneScratch, Ev.renderEv], .error e)
      | .ok _ =>
          ([Ev.cloneScratch, Ev.renderEv, Ev.writeRecord (initFinalState env)],
           .ok (Results.success
             ("Initialized microsync repository in" ++ env.renderedPath ++
               "for " ++ env.src ++ " at ref " ++ env.commitId) ""))

/-- The public `init` action: `initInner` under `results.wrapper`. -/
def initAction (env : InitEnv) : List Ev × Except PyErr Result :=
  ((initInner env).1, Results.wrapper (initInner env).2)

/-- Outcomes of the external steps of one `link` invocation
(actions/link.py lines 12-63). -/
structure LinkEnv where
  src : String
  ref : String
  vcsType : String
  templateType : String
  comparisonType : String
  cloneOut : Except PyErr Unit
  contextOut : Except PyErr Unit
  contextVars : PyVal
  commitId : String
  writeOut : Except PyErr Unit

/-- The record `link` persists (actions/link.py lines 55-60), analogous to
`initFinalState`. -/
def linkFinalState (env : LinkEnv) : State :=
  ⟨⟨PyVal.vstr env.src, PyVal.vstr env.commitId,
    ⟨PyVal.vstr env.comparisonType, PyVal.vtuple PyList.nil⟩,
    ⟨PyVal.vstr env.templateType⟩, defaultPatch,
    ⟨PyVal.vint 20, PyVal.vstr "master", PyVal.vstr "origin/master",
     PyVal.vstr env.vcsType⟩⟩,
   defaultMeta, env.contextVars⟩

/-- The un-decorated body of `link` (actions/link.py lines 12-63): create
the fresh record, clone the template in scratch space, generate the
context the render would use (no render, no touch of the destination
files), then set the record ref/variables and persist the record — the
write happens strictly after the context step succeeded. -/
def linkInner (env : LinkEnv) : List Ev × Except PyErr Result :=
  match env.cloneOut with
  | .error e => ([Ev.cloneScratch], .error e)
  | .ok _ =>
    match env.contextOut with
    | .error e => ([Ev.cloneScratch, Ev.contextEv], .error e)
    | .ok _ =>
      match env.writeOut with
      | .error e => ([Ev.cloneScratch, Ev.contextEv], .error e)
      | .ok _ =>
          ([Ev.cloneScratch, Ev.contextEv, Ev.writeRecord (linkFinalState env)],
           .ok (Results.success
             ("Repository linked to " ++ env.src ++ " at ref " ++
               env.commitId) ""))

/-- The public `link` action: `linkInner` under `results.wrapper`. -/
def linkAction (env : LinkEnv) : List Ev × Except PyErr Result :=
  ((linkInner env).1, Results.wrapper (linkInner env).2)

/-- The record of a project linked at ref `A`. -/
def stateRecA : State :=
  newState "https://example/tmpl" "A" "git" "cookiecutter" "unidiff"

/-- A concrete `sync` environment: record read fine, repository acquisition
fine, but `git status --porcelain` reports a modified file. -/
def syncEnvDirty : SyncEnv :=
  ⟨some "HEAD", .ok stateRecA, .ok (), .ok (), .ok (), .ok "M file.txt",
   .ok (), .ok false, "", .ok (), .ok (), .ok (), .ok (), .ok "", "B",
   .ok (), .ok ()⟩

/-- A concrete `sync` environment for the success scenario of the spec: the
project is recorded at ref `A`, the tree is clean, the template's latest
is `B`, context/render/diff/patch all succeed. -/
def syncEnvHappy : SyncEnv :=
  ⟨some "HEAD", .ok stateRecA, .ok (), .ok (), .ok (), .ok "",
   .ok (), .ok false, "", .ok (), .ok (), .ok (), .ok (), .ok "diff", "B",
   .ok (), .ok ()⟩

/-- A concrete `init` environment where every step succeeds. -/
def initEnvA : InitEnv :=
  ⟨"https://example/tmpl", "HEAD", "git", "cookiecutter", "unidiff",
   .ok (), .ok (), "/proj", .vdict .nil, "B", .ok ()⟩

/-- A concrete `link` environment where every step succeeds. -/
def linkEnvA : LinkEnv :=
  ⟨"https://example/tmpl", "HEAD", "git", "cookiecutter", "unidiff",
   .ok (), .ok (), .vdict .nil, "B", .ok ()⟩

/-! ## The unidiff comparison and path stripping (comparisons/unidiff.py)

`Comparison.run` (unidiff.py lines 68-82) captures the stdout of
`git diff --no-index first second` and post-processes it with
`stdout.replace(first, '').replace(second, '')`.  The external tool's
output is modelled as an interleaving of literal fragments — functions of
the compared trees' relative contents only — with occurrences of the two
absolute paths, which is exactly how the paths enter a
`git diff --no-index` header.  The replace calls are modelled faithfully
(CPython `str.replace`: leftmost non-overlapping occurrences). -/

/-- CPython `str.replace(s, old, new)` over character lists, for a
non-empty pattern: scan left to right, replace each leftmost occurrence
of `old` and continue after it.  (For the empty pattern — which
`Comparison.run` can never pass, its patterns being absolute scratch
paths — this model leaves `s` unchanged.) -/
def pyReplace (s old new : List Char) : List Char :=
  match s with
  | [] => []
  | c :: rest =>
    if old.isPrefixOf (c :: rest) && !old.isEmpty then
      new ++ pyReplace (List.drop (old.length - 1) rest) old new
    else c :: pyReplace rest old new
termination_by s.length
decreasing_by
  · simp only [List.length_cons, List.length_drop]
    omega
  · simp only [List.length_cons]
    omega

/-- One fragment of the diff tool's stdout for a single stripping pass:
literal text, or an occurrence of the path being stripped. -/
inductive Frag1 where
  | lit (s : List Char)
  | mark

/-- Concatenate the fragments, the path substituted at each `mark`. -/
def render1 : List Frag1 → List Char → List Char
  | [], _ => []
  | .lit s :: F, p => s ++ render1 F p
  | .mark :: F, p => p ++ render1 F p

/-- Concatenate only the literal fragments: the path-independent residue
that stripping is meant to leave. -/
def catLits1 : List Frag1 → List Char
  | [] => []
  | .lit s :: F => s ++ catLits1 F
  | .mark :: F => catLits1 F

/-- No occurrence of `p` starts strictly inside `l` when `l` is followed by
`t`: for every non-empty suffix `l2` of `l`, `p` is not a prefix of
`l2 ++ t`. -/
def noStartIn (p l t : List Char) : Bool :=
  l.tails.all fun l2 => l2.isEmpty || !(p.isPrefixOf (l2 ++ t))

/-- The side condition under which stripping is exact: the path occurs in
the rendered output only as the marked occurrences — no occurrence starts
inside a literal fragment. -/
def clean1 (p : List Char) : List Frag1 → Bool
  | [] => true
  | .lit s :: F => noStartIn p s (render1 F p) && clean1 p F
  | .mark :: F => clean1 p F

/-- One fragment of the diff tool's stdout: literal text (a function of the
compared relative contents only), an occurrence of the first absolute
path, or an occurrence of the second. -/
inductive Frag where
  | lit (s : List Char)
  | ref1
  | ref2

/-- The tool's stdout for concrete paths `p1`, `p2`. -/
def renderOut : List Frag → List Char → List Char → List Char
  | [], _, _ => []
  | .lit s :: F, p1, p2 => s ++ renderOut F p1 p2
  | .ref1 :: F, p1, p2 => p1 ++ renderOut F p1 p2
  | .ref2 :: F, p1, p2 => p2 ++ renderOut F p1 p2

/-- The path-independent literal residue of the output. -/
def catLits : List Frag → List Char
  | [] => []
  | .lit s :: F => s ++ catLits F
  | _ :: F => catLits F

/-- View of the output for the first replace pass: `p2` occurrences behave
as literals while `p1` occurrences are the marks being stripped. -/
def pass1 (p2 : List Char) : Frag → Frag1
  | .lit s => .lit s
  | .ref1 => .mark
  | .ref2 => .lit p2

/-- View of the output for the second replace pass, after the first pass
has deleted the `p1` occurrences. -/
def pass2 : Frag → Frag1
  | .lit s => .lit s
  | .ref1 => .lit []
  | .ref2 => .mark

/-- `stdout.replace(first, '').replace(second, '')` —
comparisons/unidiff.py line 82, shared by `compare` and `compare_files`. -/
def runStrip (out p1 p2 : List Char) : List Char :=
  pyReplace (pyReplace out p1 []) p2 []

/-- `Comparison.run` over the modelled tool output: render the fragments at
the given absolute paths, then strip both paths. -/
def runModel (F : List Frag) (p1 p2 : List Char) : List Char :=
  runStrip (renderOut F p1 p2) p1 p2

/-- Concrete diff-output fragments: a `git diff --no-index` header and hunk
for one file `f`, the two compared roots appearing as path occurrences. -/
def fragsEx : List Frag :=
  [.lit ("diff --git a".toList), .ref1, .lit ("/f b".toList), .ref2,
   .lit ("/f\n--- a".toList), .ref1,
   .lit ("/f\n+++ b".toList), .ref2, .lit ("/f\n+x\n".toList)]

/-- A first pair of absolute scratch directories. -/
def p1ex : List Char := "/tmp/microsyncaaaa.tmp/one".toList

/-- Companion second path of the first pair. -/
def p2ex : List Char := "/tmp/microsyncaaaa.tmp/two".toList

/-- A second pair of absolute scratch directories, a different temp root of
a different length. -/
def q1ex : List Char := "/var/folders/zz/bb.tmp/one".toList

/-- Companion second path of the second pair. -/
def q2ex : List Char := "/var/folders/zz/bb.tmp/twotwo".toList

/-! ## Grafting (porcelain/diff.py, ignore.py) -/

/-- The positional parameters of `ignore.ignore_names_missing` (ignore.py
lines 15-17): `layout`, `src`, `options`, all required. -/
def ignoreNamesMissingParams : List String := ["layout", "src", "options"]

/-- CPython call semantics for a function whose parameters are all required
and positional: binding fewer positional arguments than parameters raises
`TypeError: ... missing 1 required positional argument` naming the first
unbound parameter; otherwise the call proceeds. -/
def callPython (params : List String) (positionalArgs : Nat) (result : α) :
    Except PyErr α :=
  if positionalArgs < params.length then
    .error (.typeError ("missing 1 required positional argument: " ++
      ((params.drop positionalArgs).headD "")))
  else .ok result

/-- `porcelain.diff.graft` (porcelain/diff.py lines 45-64).  The body is
`shutil.copytree(src, dst, symlinks=True,
ignore=ignore.ignore_names_missing(layout, options))`; the `ignore`
keyword argument is evaluated before `copytree` runs, and the call at
line 62 passes only TWO positional arguments to the three-parameter
`ignore_names_missing`, so the call raises and nothing is copied; the
`copytree` continuation (which would return `dst`) is unreachable. -/
def graft (layout src dst : String) (options : Comparison) :
    Except PyErr String := do
  let _cb ← callPython ignoreNamesMissingParams 2 ()
  let _ := (layout, src, options)
  .ok dst

end Microsync

namespace Microsync

/-- C10: For every `Result` `r`, `bool(r)` equals `r.success`; `r.exit_code`
is `0` exactly when `r.success` holds; `inverse` negates `success` while
leaving `stdout`, `stderr` and `error` unchanged; and `inverse` is an
involution. -/
theorem C10_result_bool_exit_inverse (r : Result) :
    Results.toBool r = r.success ∧
    (Results.exitCode r = 0 ↔ r.success = true) ∧
    (Results.inverse r).success = !r.success ∧
    (Results.inverse r).stdout = r.stdout ∧
    (Results.inverse r).stderr = r.stderr ∧
    (Results.inverse r).error = r.error ∧
    Results.inverse (Results.inverse r) = r := by
  refine ⟨rfl, ?_, rfl, rfl, rfl, rfl, ?_⟩
  · cases h : r.success <;> simp [Results.exitCode, h]
  · cases r with
    | mk s o e err => cases s <;> simp [Results.inverse]

/-- C9 evidence: an exception other than `StateFileNotFound` raised inside a
wrapped operation is re-raised by `results.wrapper` (the `raise ex` at
results.py line 112) instead of being returned as a structured `Result`;
the `return error(ex, ...)` at line 113 is dead code. -/
theorem C9_wrapper_reraises :
    Results.wrapper (Except.error (PyErr.valueError "boom")) =
      Except.error (PyErr.valueError "boom") := rfl

theorem bind_error_elim {α β : Type} {P : PyErr → Prop} {x : Except PyErr α}
    {f : α → Except PyErr β}
    (hx : ∀ e, x = Except.error e → P e)
    (hf : ∀ a, ∀ e, f a = Except.error e → P e) :
    ∀ e, x >>= f = Except.error e → P e := by
  intro e h
  cases x with
  | error e1 =>
    have h2 : e1 = e := by
      simpa [Bind.bind, Except.bind] using h
    exact h2 ▸ hx e1 rfl
  | ok a => exact hf a e (by simpa [Bind.bind, Except.bind] using h)

theorem getItem_error_cases {v : PyVal} {k : String} {e : PyErr}
    (h : getItem v k = Except.error e) :
    e = PyErr.keyError k ∨ ∃ m, e = PyErr.typeError m := by
  unfold getItem at h
  split at h
  · split at h
    · exact Except.noConfusion h
    · injection h with h1
      exact Or.inl h1.symm
  · injection h with h1
    exact Or.inr ⟨_, h1.symm⟩

theorem mkComparison_error {v : PyVal} {e : PyErr}
    (h : mkComparison v = Except.error e) : ∃ m, e = PyErr.typeError m := by
  unfold mkComparison at h
  split at h
  · split at h
    · exact Except.noConfusion h
    · injection h with h1; exact ⟨_, h1.symm⟩
  · injection h with h1; exact ⟨_, h1.symm⟩

theorem mkEngine_error {v : PyVal} {e : PyErr}
    (h : mkEngine v = Except.error e) : ∃ m, e = PyErr.typeError m := by
  unfold mkEngine at h
  split at h
  · split at h
    · exact Except.noConfusion h
    · injection h with h1; exact ⟨_, h1.symm⟩
  · injection h with h1; exact ⟨_, h1.symm⟩

theorem mkPatch_error {v : PyVal} {e : PyErr}
    (h : mkPatch v = Except.error e) : ∃ m, e = PyErr.typeError m := by
  unfold mkPatch at h
  split at h
  · split at h
    · exact Except.noConfusion h
    · injection h with h1; exact ⟨_, h1.symm⟩
  · injection h with h1; exact ⟨_, h1.symm⟩

theorem mkVCS_error {v : PyVal} {e : PyErr}
    (h : mkVCS v = Except.error e) : ∃ m, e = PyErr.typeError m := by
  unfold mkVCS at h
  split at h
  · split at h
    · exact Except.noConfusion h
    · injection h with h1; exact ⟨_, h1.symm⟩
  · injection h with h1; exact ⟨_, h1.symm⟩

theorem mkMeta_error {v : PyVal} {e : PyErr}
    (h : mkMeta v = Except.error e) : ∃ m, e = PyErr.typeError m := by
  unfold mkMeta at h
  split at h
  · split at h
    · exact Except.noConfusion h
    · injection h with h1; exact ⟨_, h1.symm⟩
  · injection h with h1; exact ⟨_, h1.symm⟩

theorem mkTemplate_error {kvs : PyDict} {c : Comparison} {en : Engine}
    {p : Patch} {vc : VCS} {e : PyErr}
    (h : mkTemplate kvs c en p vc = Except.error e) :
    ∃ m, e = PyErr.typeError m := by
  unfold mkTemplate at h
  split at h
  · split at h
    · exact Except.noConfusion h
    · injection h with h1; exact ⟨_, h1.symm⟩
  · injection h with h1; exact ⟨_, h1.symm⟩

theorem mkTemplateFrom_error {tj : PyVal} {c : Comparison} {en : Engine}
    {p : Patch} {vc : VCS} {e : PyErr}
    (h : mkTemplateFrom tj c en p vc = Except.error e) :
    ∃ m, e = PyErr.typeError m := by
  unfold mkTemplateFrom at h
  split at h
  · exact mkTemplate_error h
  · injection h with h1; exact ⟨_, h1.symm⟩

theorem mkState_error {kvs : PyDict} {t : Template} {m : Meta} {e : PyErr}
    (h : mkState kvs t m = Except.error e) : ∃ m2, e = PyErr.typeError m2 := by
  unfold mkState at h
  split at h
  · exact Except.noConfusion h
  · injection h with h1; exact ⟨_, h1.symm⟩

theorem mkStateFrom_error {data : PyVal} {t : Template} {m : Meta} {e : PyErr}
    (h : mkStateFrom data t m = Except.error e) :
    ∃ m2, e = PyErr.typeError m2 := by
  unfold mkStateFrom at h
  split at h
  · exact mkState_error h
  · injection h with h1; exact ⟨_, h1.symm⟩

theorem decodeCore_error_classified (v : PyVal) :
    ∀ e, decodeCore v = Except.error e →
      (∃ k, e = PyErr.keyError k ∧ sixKeys k) ∨ ∃ m, e = PyErr.typeError m := by
  unfold decodeCore
  have keyOr : ∀ (k : String), sixKeys k →
      ∀ {e : PyErr}, (e = PyErr.keyError k ∨ ∃ m, e = PyErr.typeError m) →
      (∃ k2, e = PyErr.keyError k2 ∧ sixKeys k2) ∨ ∃ m, e = PyErr.typeError m := by
    intro k hk e h
    cases h with
    | inl h => exact Or.inl ⟨k, h, hk⟩
    | inr h => exact Or.inr h
  refine bind_error_elim
    (fun e h => keyOr "template" (Or.inl rfl) (getItem_error_cases h)) (fun tj => ?_)
  refine bind_error_elim
    (fun e h => keyOr "comparison" (Or.inr (Or.inl rfl)) (getItem_error_cases h)) (fun cj => ?_)
  refine bind_error_elim (fun e h => Or.inr (mkComparison_error h)) (fun comparison => ?_)
  refine bind_error_elim
    (fun e h => keyOr "engine" (Or.inr (Or.inr (Or.inl rfl))) (getItem_error_cases h)) (fun ej => ?_)
  refine bind_error_elim (fun e h => Or.inr (mkEngine_error h)) (fun engine => ?_)
  refine bind_error_elim
    (fun e h => keyOr "patch" (Or.inr (Or.inr (Or.inr (Or.inl rfl)))) (getItem_error_cases h)) (fun pj => ?_)
  refine bind_error_elim (fun e h => Or.inr (mkPatch_error h)) (fun patch => ?_)
  refine bind_error_elim
    (fun e h => keyOr "vcs" (Or.inr (Or.inr (Or.inr (Or.inr (Or.inl rfl))))) (getItem_error_cases h)) (fun vj => ?_)
  refine bind_error_elim (fun e h => Or.inr (mkVCS_error h)) (fun vcs => ?_)
  refine bind_error_elim (fun e h => Or.inr (mkTemplateFrom_error h)) (fun template => ?_)
  refine bind_error_elim
    (fun e h => keyOr "meta" (Or.inr (Or.inr (Or.inr (Or.inr (Or.inr rfl))))) (getItem_error_cases h)) (fun mj => ?_)
  refine bind_error_elim (fun e h => Or.inr (mkMeta_error h)) (fun meta => ?_)
  exact fun e h => Or.inr (mkStateFrom_error h)

theorem State_decode_error_classified (v : PyVal) :
    ∀ e, State.decode v = Except.error e →
      (∃ k, e = PyErr.stateFileFieldMissing k ∧ sixKeys k) ∨
        ∃ m, e = PyErr.typeError m := by
  intro e h
  unfold State.decode at h
  split at h
  · rename_i k heq
    injection h with h1
    rcases decodeCore_error_classified v _ heq with ⟨k2, hk2, hsix⟩ | ⟨m, hm⟩
    · injection hk2 with hk3
      exact Or.inl ⟨k, h1.symm, hk3 ▸ hsix⟩
    · exact PyErr.noConfusion hm
  · rename_i hne
    rcases decodeCore_error_classified v e h with ⟨k, rfl, hsix⟩ | hm
    · exact absurd h (fun hh => hne k hh)
    · exact Or.inr hm

/-- C4 amended: decoding the encoding of a linkage record always succeeds
and yields the record with every leaf replaced by its JSON round-trip
image (`pyJson`): tuples come back as lists with the same elements, dict
keys in sorted order, everything else unchanged.  Equality with the
original record therefore holds only when no leaf contains a tuple. -/
theorem C4_roundtrip_canonical (s : State) :
    State.decode (State.encode s) = Except.ok (canonState s) := rfl

/-- C4 counterexample: for the record built by `config.new` with all
defaults (whose `comparison.ignore` is the default empty tuple `()`),
`State.decode(state.encode())` is not equal to the original state: the
decoded record carries `ignore == []`, and in Python `[] == ()` is
`False`, exactly as the list/tuple distinction of `PyVal` records. -/
theorem C4_counterexample :
    State.decode (State.encode stateA) ≠ Except.ok stateA := by
  intro h
  have h0 : State.decode (State.encode stateA) = Except.ok (canonState stateA) := rfl
  have h1 : canonState stateA = stateA := Except.ok.inj (h0.symm.trans h)
  exact PyVal.noConfusion (congrArg (fun st => st.template.comparison.ignore) h1)

/-- C8 amended: `config.read` fails with `StateFileNotFound` exactly when no
file exists at the resolved path and with `StateFileMalformed` exactly
when the contents cannot be parsed as JSON; a `StateFileFieldMissing`
error, whenever raised, names one of the six object keys the decoder
subscripts (`template`, `comparison`, `engine`, `patch`, `vcs`, `meta`).
The absence of the required leaf field `template.src` is NOT covered by
these kinds: it surfaces as an uncaught `TypeError`
(see the C8 counterexample), so the three error kinds do not cover all
decoding failures. -/
theorem C8_read_error_taxonomy (path : String) (input : ReadInput) :
    (read path input = Except.error (PyErr.stateFileNotFound path) ↔
      input = ReadInput.noFile) ∧
    (read path input = Except.error (PyErr.stateFileMalformed path) ↔
      input = ReadInput.unparsable) ∧
    (∀ k, read path input = Except.error (PyErr.stateFileFieldMissing k) →
      sixKeys k) := by
  cases input with
  | noFile => exact ⟨by simp [read], by simp [read], by simp [read]⟩
  | unparsable => exact ⟨by simp [read], by simp [read], by simp [read]⟩
  | parsed v =>
    refine ⟨⟨fun h => ?_, fun h => ReadInput.noConfusion h⟩,
            ⟨fun h => ?_, fun h => ReadInput.noConfusion h⟩, fun k h => ?_⟩
    · rcases State_decode_error_classified v _ h with ⟨k2, hk2, _⟩ | ⟨m, hm⟩
      · exact PyErr.noConfusion hk2
      · exact PyErr.noConfusion hm
    · rcases State_decode_error_classified v _ h with ⟨k2, hk2, _⟩ | ⟨m, hm⟩
      · exact PyErr.noConfusion hk2
      · exact PyErr.noConfusion hm
    · rcases State_decode_error_classified v _ h with ⟨k2, hk2, hsix⟩ | ⟨m, hm⟩
      · injection hk2 with h3
        exact h3 ▸ hsix
      · exact PyErr.noConfusion hm

/-- Witness for the C8 amended theorem at concrete inputs. -/
theorem C8_read_error_taxonomy_witness :
    read "proj" ReadInput.noFile =
      Except.error (PyErr.stateFileNotFound "proj") :=
  (C8_read_error_taxonomy "proj" ReadInput.noFile).1.mpr rfl

/-- C8 counterexample: a parsed state file in which every nested object is
present but the required field `template.src` is absent makes
`config.read` fail with a `TypeError` (from `Template(**...)`), not with
`StateFileFieldMissing('src')`: the three structured error kinds do not
cover this decoding failure. -/
theorem C8_counterexample :
    read "proj" (ReadInput.parsed srcMissingInput) =
      Except.error (PyErr.typeError "Template() missing required argument: src") := rfl

theorem finalRecord_of_no_write (s0 : State) (evs : List Ev)
    (h : ∀ s, Ev.writeRecord s ∉ evs) : finalRecord s0 evs = s0 := by
  induction evs with
  | nil => rfl
  | cons e tl ih =>
    cases e
    case writeRecord s => exact absurd (List.mem_cons_self _ _) (h s)
    all_goals exact ih fun s hm => h s (List.mem_cons_of_mem _ hm)

theorem syncAfterRepo_no_write (env : SyncEnv) (evs : List Ev) (s : State)
    (h : Ev.writeRecord s ∉ evs) :
    Ev.writeRecord s ∉ (syncAfterRepo env evs).1 := by
  unfold syncAfterRepo
  repeat' split
  all_goals simp_all [List.mem_append]

theorem sync_no_writeRecord (env : SyncEnv) (s : State) :
    Ev.writeRecord s ∉ (sync env).1 := by
  unfold sync syncInner
  repeat' split
  all_goals first
    | exact syncAfterRepo_no_write env _ s (by simp)
    | simp

/-- C2: whenever the `is_dirty` check reports a dirty tree (non-empty
`git status --porcelain` output, hence a truthy `Result`), `sync` returns
the dirty Failure carrying that status text, and neither git command of
`apply_patch` is ever invoked during the call. -/
theorem C2_dirty_guard (env : SyncEnv) (st : State) (d : String)
    (hread : env.readState = Except.ok st)
    (hbr : env.coBranchOut = Except.ok ())
    (hpull : env.pullOut = Except.ok ())
    (hco : env.coRefOut = Except.ok ())
    (hdirty : env.dirtyOut = Except.ok d)
    (hd : d ≠ "") :
    (sync env).2 = Except.ok (Results.failure "" (dirtyMsg d)) ∧
    Ev.applyPatch ∉ (sync env).1 ∧ Ev.commitPatch ∉ (sync env).1 := by
  have hAfter : ∀ evs, syncAfterRepo env evs =
      (evs, Except.ok (Results.failure "" (dirtyMsg d))) := by
    intro evs
    unfold syncAfterRepo
    rw [hdirty]
    simp [hd]
  cases href : env.refArg with
  | none =>
    simp [sync, syncInner, hread, hbr, hpull, href, hAfter, Results.wrapper]
  | some r =>
    by_cases hr : r = "" <;>
      simp [sync, syncInner, hread, hbr, hpull, href, hr, hco, hAfter,
        Results.wrapper]

/-- Witness for C2 at a concrete dirty environment. -/
theorem C2_dirty_guard_witness :
    (sync syncEnvDirty).2 =
      Except.ok (Results.failure "" (dirtyMsg "M file.txt")) ∧
    Ev.applyPatch ∉ (sync syncEnvDirty).1 ∧
    Ev.commitPatch ∉ (sync syncEnvDirty).1 :=
  C2_dirty_guard syncEnvDirty stateRecA "M file.txt" rfl rfl rfl rfl rfl
    (by decide)

/-- C5 counterexample: on a dirty repository, before the dirty check ever
runs, `sync`'s repository acquisition (`porcelain.repo` →
`git.VersionControl.local`, git.py lines 204-226) has already run
`git checkout master` and `git pull` — and checked out the requested ref —
inside the user's live repository; the claim that no checkout or pull
occurs during the dirty-path call is false. -/
theorem C5_counterexample :
    (sync syncEnvDirty).1 =
      [Ev.coBranch "master", Ev.pull, Ev.coRef "HEAD"] ∧
    (sync syncEnvDirty).2 =
      Except.ok (Results.failure "" (dirtyMsg "M file.txt")) :=
  ⟨rfl, rfl⟩

/-- C5 amended: on the dirty path `sync` returns the Failure straight from
the dirty check — no patch application, no commit and no record write
occur at any point of the call — but the repository acquisition that runs
before the check does execute `git checkout master` and `git pull` on the
user's live repository. -/
theorem C5_dirty_path_effects (env : SyncEnv) (st : State) (d : String)
    (hread : env.readState = Except.ok st)
    (hbr : env.coBranchOut = Except.ok ())
    (hpull : env.pullOut = Except.ok ())
    (hco : env.coRefOut = Except.ok ())
    (hdirty : env.dirtyOut = Except.ok d)
    (hd : d ≠ "") :
    (sync env).2 = Except.ok (Results.failure "" (dirtyMsg d)) ∧
    Ev.applyPatch ∉ (sync env).1 ∧
    Ev.commitPatch ∉ (sync env).1 ∧
    (∀ s, Ev.writeRecord s ∉ (sync env).1) ∧
    Ev.coBranch "master" ∈ (sync env).1 ∧ Ev.pull ∈ (sync env).1 := by
  have hAfter : ∀ evs, syncAfterRepo env evs =
      (evs, Except.ok (Results.failure "" (dirtyMsg d))) := by
    intro evs
    unfold syncAfterRepo
    rw [hdirty]
    simp [hd]
  cases href : env.refArg with
  | none =>
    simp [sync, syncInner, hread, hbr, hpull, href, hAfter, Results.wrapper]
  | some r =>
    by_cases hr : r = "" <;>
      simp [sync, syncInner, hread, hbr, hpull, href, hr, hco, hAfter,
        Results.wrapper]

/-- Witness for the C5 amended theorem at the concrete dirty environment. -/
theorem C5_dirty_path_effects_witness :
    (sync syncEnvDirty).2 =
      Except.ok (Results.failure "" (dirtyMsg "M file.txt")) ∧
    Ev.writeRecord stateRecA ∉ (sync syncEnvDirty).1 ∧
    Ev.coBranch "master" ∈ (sync syncEnvDirty).1 :=
  let h := C5_dirty_path_effects syncEnvDirty stateRecA "M file.txt" rfl rfl
    rfl rfl rfl (by decide)
  ⟨h.1, h.2.2.2.1 stateRecA, h.2.2.2.2.1⟩

/-- C1 evidence: in the success scenario (project recorded at ref `A`,
clean tree, latest ref `B`, patch applied and committed), `sync` returns
success, yet its full event trace contains no write of the linkage
record: the persisted record still carries ref `A`, not `B`.
`actions/sync.py` never calls `State.set_ref` or `config.write`. -/
theorem C1_sync_never_persists_ref :
    (sync syncEnvHappy).2 =
      Except.ok (Results.success "Repository sync successful with ref B" "") ∧
    (sync syncEnvHappy).1 =
      [Ev.coBranch "master", Ev.pull, Ev.coRef "HEAD", Ev.cloneScratch,
       Ev.statusQuery, Ev.cloneScratch, Ev.contextEv, Ev.renderEv,
       Ev.renderEv, Ev.diffEv, Ev.applyPatch, Ev.commitPatch] ∧
    finalRecord stateRecA (sync syncEnvHappy).1 = stateRecA ∧
    stateRecA.template.ref = PyVal.vstr "A" :=
  ⟨rfl, rfl, rfl, rfl⟩

/-- C3: across the three record-mutating operations, the persisted record
changes only after the operation's fallible pre-steps have succeeded:
`sync` never writes the record on any path (so any failure injected
between rendering and patch application trivially leaves the persisted
ref unchanged); `init` writes only after its render step succeeded, and
the written record carries the resolved commit id; `link` — which by
design performs no render — writes only after its context step succeeded. -/
theorem C3_record_written_only_after_success (se : SyncEnv) (ie : InitEnv)
    (le : LinkEnv) (s0 : State) :
    (∀ s, Ev.writeRecord s ∉ (sync se).1) ∧
    finalRecord s0 (sync se).1 = s0 ∧
    (∀ s, Ev.writeRecord s ∈ (initAction ie).1 →
        ie.renderOut = Except.ok () ∧ s = initFinalState ie ∧
        (initAction ie).1 = [Ev.cloneScratch, Ev.renderEv, Ev.writeRecord s]) ∧
    (∀ s, Ev.writeRecord s ∈ (linkAction le).1 →
        le.contextOut = Except.ok () ∧ s = linkFinalState le ∧
        (linkAction le).1 =
          [Ev.cloneScratch, Ev.contextEv, Ev.writeRecord s]) := by
  refine ⟨fun s => sync_no_writeRecord se s,
          finalRecord_of_no_write s0 _ (fun s => sync_no_writeRecord se s),
          fun s hmem => ?_, fun s hmem => ?_⟩
  · rcases h1 : ie.obtainOut with e1 | u1
    · simp [initAction, initInner, h1] at hmem
    · rcases h2 : ie.renderOut with e2 | u2
      · simp [initAction, initInner, h1, h2] at hmem
      · rcases h3 : ie.writeOut with e3 | u3
        · simp [initAction, initInner, h1, h2, h3] at hmem
        · simp [initAction, initInner, h1, h2, h3] at hmem
          exact ⟨rfl, hmem, by simp [initAction, initInner, h1, h2, h3, hmem]⟩
  · rcases h1 : le.cloneOut with e1 | u1
    · simp [linkAction, linkInner, h1] at hmem
    · rcases h2 : le.contextOut with e2 | u2
      · simp [linkAction, linkInner, h1, h2] at hmem
      · rcases h3 : le.writeOut with e3 | u3
        · simp [linkAction, linkInner, h1, h2, h3] at hmem
        · simp [linkAction, linkInner, h1, h2, h3] at hmem
          exact ⟨rfl, hmem, by simp [linkAction, linkInner, h1, h2, h3, hmem]⟩

/-- Witness for C3 at concrete environments. -/
theorem C3_record_written_only_after_success_witness :
    Ev.writeRecord stateRecA ∉ (sync syncEnvDirty).1 ∧
    finalRecord stateRecA (sync syncEnvDirty).1 = stateRecA ∧
    (initAction initEnvA).1 =
      [Ev.cloneScratch, Ev.renderEv, Ev.writeRecord (initFinalState initEnvA)] :=
  let h := C3_record_written_only_after_success syncEnvDirty initEnvA linkEnvA
    stateRecA
  ⟨h.1 stateRecA, h.2.1,
   (h.2.2.1 (initFinalState initEnvA) (by simp [initAction, initInner,
     initEnvA])).2.2⟩

theorem pyReplace_nil (old new : List Char) : pyReplace [] old new = [] := by
  simp [pyReplace]

theorem noStartIn_cons {p : List Char} {c : Char} {l t : List Char}
    (h : noStartIn p (c :: l) t = true) :
    p.isPrefixOf (c :: (l ++ t)) = false ∧ noStartIn p l t = true := by
  unfold noStartIn at h
  rw [List.tails] at h
  simp only [List.all_cons, Bool.and_eq_true, List.isEmpty_cons,
    Bool.false_or, Bool.not_eq_true'] at h
  exact ⟨by simpa using h.1, h.2⟩

theorem pyReplace_append_of_noStart (p : List Char) (_hp : p ≠ []) :
    ∀ l t, noStartIn p l t = true →
      pyReplace (l ++ t) p [] = l ++ pyReplace t p [] := by
  intro l
  induction l with
  | nil => intro t _; simp
  | cons c l ih =>
    intro t h
    obtain ⟨h1, h2⟩ := noStartIn_cons h
    rw [List.cons_append, pyReplace, h1]
    simp only [Bool.false_and, Bool.false_eq_true, if_false]
    rw [ih t h2]
    rfl

theorem pyReplace_head (p t : List Char) (hp : p ≠ []) :
    pyReplace (p ++ t) p [] = pyReplace t p [] := by
  match p, hp with
  | c :: p2, _ =>
    rw [List.cons_append, pyReplace]
    have hpre : (c :: p2).isPrefixOf (c :: (p2 ++ t)) = true := by
      rw [List.isPrefixOf_iff_prefix]
      exact List.prefix_append _ _
    rw [hpre]
    simp only [List.isEmpty_cons, Bool.not_false, Bool.and_true, if_true]
    simp only [List.length_cons, Nat.add_sub_cancel, List.nil_append]
    rw [List.drop_left]

theorem strip_render1 (p : List Char) (hp : p ≠ []) :
    ∀ F, clean1 p F = true → pyReplace (render1 F p) p [] = catLits1 F := by
  intro F
  induction F with
  | nil => intro _; exact pyReplace_nil p []
  | cons f F ih =>
    cases f with
    | lit s =>
      intro h
      simp only [clean1, Bool.and_eq_true] at h
      show pyReplace (s ++ render1 F p) p [] = s ++ catLits1 F
      rw [pyReplace_append_of_noStart p hp s _ h.1, ih h.2]
    | mark =>
      intro h
      simp only [clean1] at h
      show pyReplace (p ++ render1 F p) p [] = catLits1 F
      rw [pyReplace_head _ _ hp, ih h]

theorem renderOut_eq_pass1 (F : List Frag) (p1 p2 : List Char) :
    renderOut F p1 p2 = render1 (F.map (pass1 p2)) p1 := by
  induction F with
  | nil => rfl
  | cons f F ih => cases f <;> simp [renderOut, pass1, render1, ih]

theorem catLits1_pass1_eq_render1_pass2 (F : List Frag) (p2 : List Char) :
    catLits1 (F.map (pass1 p2)) = render1 (F.map pass2) p2 := by
  induction F with
  | nil => rfl
  | cons f F ih => cases f <;> simp [pass1, pass2, catLits1, render1, ih]

theorem catLits1_pass2_eq_catLits (F : List Frag) :
    catLits1 (F.map pass2) = catLits F := by
  induction F with
  | nil => rfl
  | cons f F ih => cases f <;> simp [pass2, catLits1, catLits, ih]

theorem runModel_eq_catLits (F : List Frag) (p1 p2 : List Char)
    (h1 : p1 ≠ []) (h2 : p2 ≠ [])
    (hc1 : clean1 p1 (F.map (pass1 p2)) = true)
    (hc2 : clean1 p2 (F.map pass2) = true) :
    runModel F p1 p2 = catLits F := by
  unfold runModel runStrip
  rw [renderOut_eq_pass1, strip_render1 p1 h1 _ hc1,
    catLits1_pass1_eq_render1_pass2, strip_render1 p2 h2 _ hc2,
    catLits1_pass2_eq_catLits]

/-- C6: for any tool output over two trees — an interleaving of literal
text determined by the trees' relative contents with occurrences of the
two absolute scratch paths — `Comparison.run`'s stripping
(`.replace(first, '').replace(second, '')`) erases every path occurrence
and leaves exactly the literal residue, provided no path occurrence
starts inside literal text (`clean1`; absolute temp paths do not occur in
diff bodies of trees that do not mention them).  Two invocations over the
same relative contents from different temporary roots therefore produce
byte-identical diff content.  `compare` and `compare_files` differ only
in the git options they pass, not in the stripping (unidiff.py lines
27-66), so this covers both. -/
theorem C6_diff_path_independence (F : List Frag) (p1 p2 q1 q2 : List Char)
    (hp1 : p1 ≠ []) (hp2 : p2 ≠ []) (hq1 : q1 ≠ []) (hq2 : q2 ≠ [])
    (hc1 : clean1 p1 (F.map (pass1 p2)) = true)
    (hc2 : clean1 p2 (F.map pass2) = true)
    (hd1 : clean1 q1 (F.map (pass1 q2)) = true)
    (hd2 : clean1 q2 (F.map pass2) = true) :
    runModel F p1 p2 = runModel F q1 q2 := by
  rw [runModel_eq_catLits F p1 p2 hp1 hp2 hc1 hc2,
    runModel_eq_catLits F q1 q2 hq1 hq2 hd1 hd2]

/-- Witness for C6: a concrete one-file diff output, stripped from two
different temporary roots (of different lengths), is byte-identical. -/
theorem C6_diff_path_independence_witness :
    runModel fragsEx p1ex p2ex = runModel fragsEx q1ex q2ex :=
  C6_diff_path_independence fragsEx p1ex p2ex q1ex q2ex
    (by decide) (by decide) (by decide) (by decide)
    (by decide) (by decide) (by decide) (by decide)

/-- C7 evidence: every call of `graft` — in particular the one `drift`
makes — raises `TypeError` while evaluating
`ignore.ignore_names_missing(layout, options)`, because the function
requires three positional parameters `(layout, src, options)` and the
call site at porcelain/diff.py line 62 passes only two; no entry is ever
copied and `dst` is never returned. -/
theorem C7_graft_always_raises (layout src dst : String)
    (options : Comparison) :
    graft layout src dst options =
      Except.error (PyErr.typeError
        "missing 1 required positional argument: options") := rfl


end Microsync
